import Mathlib

/-!
Verification of the form snapshot engine of the `exam-saas` repository:
snapshot storage (`FormSnapshotManager`), snapshot diffing and validation
(`compareSnapshots`, `validateSnapshot`), schema migration
(`SnapshotMigrationManager`), and report generation/formatting
(`generateReport`, `formatMarkdownReport`, `formatHtmlReport`).

The TypeScript sources are shallowly embedded:

* JavaScript runtime values are modelled by the inductive `Value`.  Composite
  values (objects, arrays) carry a `ref : Nat` identifying the heap object, so
  that strict equality (`===`), which is reference equality on composites, is
  expressible; two composites are the same object iff they share a `ref`.
* JavaScript objects are ordered association lists (`List (String × Value)`),
  mirroring insertion-ordered string keys; `Object.keys` is `List.map Prod.fst`.
* `JSON.stringify`-based equality is modelled by `jsonEq`: structural equality
  after the normalisation `JSON.stringify` performs (dropping `undefined`
  object properties, turning `undefined` array elements into `null`, and
  ignoring object identity).  On this value universe the canonical
  serialisation is injective up to that normalisation, so equality of the
  serialised strings coincides with `jsonEq`.
* Machine numbers that the engine manipulates (timestamps, counters, version
  segments) are integers in the source's use, and are modelled as `Int`/`Nat`.
* Code that can throw is modelled in `Except`; `async` migration steps are
  awaited strictly sequentially by the manager, so they are flattened to their
  results.  Nondeterministic inputs (`crypto.randomUUID()`, `Date.now()`) are
  explicit parameters.
* `localStorage` access (`getItem`/`JSON.parse`/`decompress` on the snapshot
  key, and `setItem`) is abstracted to a `StorageState`: a fallible read
  producing the persisted snapshot list (or nothing), and a write that either
  succeeds or throws.  The optional base64 "compression" is a lossless round
  trip folded into that abstraction.
* `Array.prototype.sort` is stable (ES2019), and every comparator used by the
  engine induces a total preorder, so all stable sorts agree; sorting is
  modelled by the stable insertion sort `sortByCmp`.
-/

/-! ## JavaScript values -/

/-- A JavaScript runtime value, as manipulated by the snapshot engine.
Composite values carry a `ref` identifying the underlying heap object
(reference equality); primitive values are compared by value. -/
inductive Value where
  | vNull
  | vUndefined
  | vBool (b : Bool)
  | vNum (n : Int)
  | vStr (s : String)
  | vArr (ref : Nat) (elems : List Value)
  | vObj (ref : Nat) (fields : List (String × Value))
  deriving Repr

mutual

/-- Structural equality of values (object identity included). -/
def beqV : Value → Value → Bool
  | .vNull, .vNull => true
  | .vUndefined, .vUndefined => true
  | .vBool a, .vBool b => a == b
  | .vNum a, .vNum b => a == b
  | .vStr a, .vStr b => a == b
  | .vArr r1 xs, .vArr r2 ys => r1 == r2 && beqVL xs ys
  | .vObj r1 fs, .vObj r2 gs => r1 == r2 && beqVF fs gs
  | _, _ => false

/-- Structural equality of value lists. -/
def beqVL : List Value → List Value → Bool
  | [], [] => true
  | x :: xs, y :: ys => beqV x y && beqVL xs ys
  | _, _ => false

/-- Structural equality of object field lists. -/
def beqVF : List (String × Value) → List (String × Value) → Bool
  | [], [] => true
  | (k, v) :: xs, (l, w) :: ys => k == l && beqV v w && beqVF xs ys
  | _, _ => false

end

mutual

/-- The normalisation `JSON.stringify` applies to a value: `undefined` object
properties are dropped, `undefined` array elements serialise as `null`, and
object identity (`ref`) does not appear in the output. -/
def jnorm : Value → Value
  | .vArr _ xs => .vArr 0 (jnormArr xs)
  | .vObj _ fs => .vObj 0 (jnormObj fs)
  | v => v

/-- Normalise the elements of an array (`undefined` becomes `null`). -/
def jnormArr : List Value → List Value
  | [] => []
  | .vUndefined :: xs => .vNull :: jnormArr xs
  | x :: xs => jnorm x :: jnormArr xs

/-- Normalise the fields of an object (`undefined`-valued properties drop). -/
def jnormObj : List (String × Value) → List (String × Value)
  | [] => []
  | (_, .vUndefined) :: fs => jnormObj fs
  | (k, v) :: fs => (k, jnorm v) :: jnormObj fs

end

/-- `JSON.stringify(a) === JSON.stringify(b)`: equality of canonical
serialisations, i.e. structural equality after `jnorm`.  (Top-level
`undefined` serialises to the value `undefined` on both sides, which compare
equal, so no extra case is needed.) -/
def jsonEq (a b : Value) : Bool := beqV (jnorm a) (jnorm b)

/-- JavaScript strict equality `===`: value equality on primitives,
reference equality on composites.  `null === undefined` is `false`. -/
def strictEq : Value → Value → Bool
  | .vNull, .vNull => true
  | .vUndefined, .vUndefined => true
  | .vBool a, .vBool b => a == b
  | .vNum a, .vNum b => a == b
  | .vStr a, .vStr b => a == b
  | .vArr r1 _, .vArr r2 _ => r1 == r2
  | .vObj r1 _, .vObj r2 _ => r1 == r2
  | _, _ => false

/-- JavaScript truthiness. -/
def truthy : Value → Bool
  | .vNull => false
  | .vUndefined => false
  | .vBool b => b
  | .vNum n => n != 0
  | .vStr s => s != ""
  | .vArr _ _ => true
  | .vObj _ _ => true

/-- JavaScript `typeof` (note `typeof null === "object"`). -/
def typeofV : Value → String
  | .vNull => "object"
  | .vUndefined => "undefined"
  | .vBool _ => "boolean"
  | .vNum _ => "number"
  | .vStr _ => "string"
  | .vArr _ _ => "object"
  | .vObj _ _ => "object"

/-- `Array.isArray`. -/
def isArrayV : Value → Bool
  | .vArr _ _ => true
  | _ => false

/-! ## Form states -/

/-- A form state `T extends Record<string, any>`: an insertion-ordered object
with string keys.  JavaScript objects have unique keys; theorems assume
`(keysOf s).Nodup` where that matters. -/
abbrev StateV := List (String × Value)

/-- `Object.keys`. -/
def keysOf (s : StateV) : List String := s.map Prod.fst

/-- Property access `s[k]`: the first binding of `k`, or `undefined`. -/
def getField (s : StateV) (k : String) : Value :=
  match s.find? (fun kv => kv.1 == k) with
  | some kv => kv.2
  | none => .vUndefined

/-- Property access on an arbitrary value: named properties of non-objects
read as `undefined` (array index/`length` properties are outside the model). -/
def getProp (v : Value) (k : String) : Value :=
  match v with
  | .vObj _ fs => getField fs k
  | _ => .vUndefined

/-- Object spread update `{...fs, k: v}`: replaces the binding in place if the
key exists, else appends it. -/
def setField (fs : List (String × Value)) (k : String) (v : Value) :
    List (String × Value) :=
  if fs.any (fun kv => kv.1 == k) then
    fs.map (fun kv => if kv.1 == k then (k, v) else kv)
  else fs ++ [(k, v)]

/-! ## Stable sorting

`Array.prototype.sort(cmp)` with a consistent comparator is a stable sort;
`sortByCmp` is the stable insertion sort (each element is inserted after all
elements that compare `<= 0` against it, preserving the original order of
ties). -/

/-- Insert `x` after every element `y` with `le y x`. -/
def insertLe (le : α → α → Bool) (x : α) : List α → List α
  | [] => [x]
  | y :: ys => if le y x then y :: insertLe le x ys else x :: y :: ys

/-- Stable insertion sort on a `<= 0` test. -/
def sortLe (le : α → α → Bool) : List α → List α
  | [] => []
  | x :: xs => insertLe le x (sortLe le xs)

/-- Stable sort by a JavaScript-style numeric comparator. -/
def sortByCmp (cmp : α → α → Int) (l : List α) : List α :=
  sortLe (fun a b => cmp a b ≤ 0) l

/-! ## Version comparison

`compareVersions` appears twice in the source with identical bodies: as a
private method of `SnapshotMigrationManager` (formSnapshotMigration) and as a
module-level function of the report generator (formSnapshotReport).  Both
split on `.`, coerce each segment with `Number`, index out of range or `NaN`
falling back to `0` via `|| 0`, and return the difference of the first
unequal pair of segments. -/

/-- Split a character list on a separator character (like `String.split`). -/
def splitOnChar (c : Char) : List Char → List (List Char)
  | [] => [[]]
  | x :: xs =>
    match splitOnChar c xs with
    | [] => if x = c then [[], []] else [[x]]
    | r :: rs => if x = c then [] :: r :: rs else (x :: r) :: rs

/-- Parse the digits of a version segment. -/
def digitsToNat (acc : Nat) : List Char → Option Nat
  | [] => some acc
  | c :: cs => if c.isDigit then digitsToNat (acc * 10 + (c.toNat - 48)) cs else none

/-- JavaScript `Number(segment) || 0` for a version segment: a (possibly
negatively signed) decimal numeral parses to its value, anything else (for
which `Number` yields `NaN`, which is falsy) falls back to `0`.  The empty
segment is `0` either way (`Number("") === 0`). -/
def segToInt (cs : List Char) : Int :=
  match cs with
  | '-' :: rest =>
    match digitsToNat 0 rest with
    | some n => if rest.isEmpty then 0 else -(n : Int)
    | none => 0
  | _ =>
    match digitsToNat 0 cs with
    | some n => n
    | none => 0

/-- The numeric segments of a version string: split on `.`, coerce each. -/
def segsOf (v : String) : List Int := (splitOnChar '.' v.data).map segToInt

/-- The body of the source's index loop: at each step read `parts[i] || 0`
from both lists (out-of-range reads as `0`), return the difference on the
first mismatch.  The fuel is the number of remaining iterations. -/
def cmpSegAux : Nat → List Int → List Int → Int
  | 0, _, _ => 0
  | n + 1, as', bs =>
    let a := as'.headD 0
    let b := bs.headD 0
    if a ≠ b then a - b else cmpSegAux n as'.tail bs.tail

/-- The source's loop `for i in 0..max(len1,len2)` with `parts[i] || 0`. -/
def cmpSegLists (as' bs : List Int) : Int :=
  cmpSegAux (max as'.length bs.length) as' bs

/-- `compareVersions(v1, v2)` (formSnapshotMigration / formSnapshotReport):
dotted-numeric comparison, missing segments read as `0`, sign of the first
unequal segment difference. -/
def compareVersions (v1 v2 : String) : Int :=
  cmpSegLists (segsOf v1) (segsOf v2)

/-! ## Snapshots -/

/-- `FormSnapshot<T>` (formSnapshot.ts).  `metadata` is an optional open
record; it is kept as a runtime `Value` because the engine reads dynamic
fields out of it (`metadata?.migrations`). -/
structure FormSnapshot where
  id : String
  timestamp : Int
  state : StateV
  version : String
  metadata : Option Value
  deriving Repr

/-- A field transition `FieldChange<V> = { from, to }`. -/
structure FieldChange where
  fromVal : Value
  toVal : Value
  deriving Repr

/-- A placeholder snapshot (used only to name defaults in witnesses). -/
def emptySnapshot : FormSnapshot :=
  { id := "", timestamp := 0, state := [], version := "", metadata := none }

/-! ## Snapshot store (`FormSnapshotManager`, formSnapshot.ts)

The storage pipeline `storage.getItem(key)` / `decompress` / `JSON.parse`
(and symmetrically `JSON.stringify` / `compress` / `storage.setItem`) is
abstracted to a `StorageState`: the read side either throws (corrupt payload
or storage failure), finds no data, or produces the persisted snapshot list;
the write side either succeeds or throws.  The optional base64 encoding is a
lossless round trip inside this abstraction, and the JSON round trip of a
snapshot list is the identity on this model. -/

/-- The observable behaviour of the underlying key-value storage for the
manager's namespaced snapshot key. -/
structure StorageState where
  /-- Result of `getItem` + `decompress` + `JSON.parse`: `.error` models a
  throw anywhere in that pipeline, `.ok none` a missing key, `.ok (some l)`
  the successfully parsed snapshot list. -/
  readResult : Except Unit (Option (List FormSnapshot))
  /-- Whether `setItem` succeeds (`false` models a throw, e.g. quota). -/
  writeOk : Bool

/-- The manager's resolved configuration (constructor defaults already
applied: `maxSnapshots: options.maxSnapshots || 10`,
`autoCleanup: options.autoCleanup ?? true`). -/
structure FormSnapshotManager where
  maxSnapshots : Nat
  autoCleanup : Bool

/-- `SnapshotFieldConfig`: the per-field configuration record.  The open
extension bag is represented by the fields the engine reads (`type`,
`label`, `important`, `required`); `important`/`required` are truthiness
checks in the source, modelled as `Bool`. -/
structure SnapshotFieldConfig where
  type : Option String := none
  label : Option String := none
  important : Bool := false
  required : Bool := false
  deriving Repr

/-- `SnapshotFormConfig<T>`: field name to field configuration, in
declaration order (`Object.entries`/`Object.keys` iteration order). -/
abbrev SnapshotFormConfig := List (String × SnapshotFieldConfig)

/-- `config[field]` lookup. -/
def configLookup (config : SnapshotFormConfig) (k : String) :
    Option SnapshotFieldConfig :=
  (config.find? (fun kv => kv.1 == k)).map Prod.snd

/-- `config[field]?.important` as a truthiness test. -/
def importantIn (config : SnapshotFormConfig) (k : String) : Bool :=
  match configLookup config k with
  | some fc => fc.important
  | none => false

/-- `getSnapshots()` (private): reads and parses the persisted list; any
throw is caught, logged, and degrades to `[]`; a missing key is `[]`. -/
def getSnapshots (st : StorageState) : List FormSnapshot :=
  match st.readResult with
  | .error _ => []
  | .ok none => []
  | .ok (some snapshots) => snapshots

/-- `saveSnapshots(snapshots)` (private): serialises and writes; there is no
`try`/`catch` here, so a `setItem` throw propagates.  The `.ok` payload is
the list that was persisted. -/
def saveSnapshots (st : StorageState) (snapshots : List FormSnapshot) :
    Except Unit (List FormSnapshot) :=
  if st.writeOk then .ok snapshots else .error ()

/-- `createSnapshot(state, metadata?)`: reads the current list (read errors
degrade to `[]`), appends a fresh snapshot with version `'1.0'`, evicts the
oldest entry (`shift`) when auto-cleanup is on and the list overflows
`maxSnapshots`, and persists.  `id` models `crypto.randomUUID()` and `now`
models `Date.now()`.  Returns the created snapshot together with the
persisted list; a write throw propagates as `.error`. -/
def createSnapshot (mgr : FormSnapshotManager) (st : StorageState)
    (state : StateV) (metadata : Option Value) (id : String) (now : Int) :
    Except Unit (FormSnapshot × List FormSnapshot) :=
  let snapshots := getSnapshots st
  let snapshot : FormSnapshot :=
    { id := id, timestamp := now, state := state, version := "1.0",
      metadata := metadata }
  let snapshots := snapshots ++ [snapshot]
  let snapshots :=
    if mgr.autoCleanup && decide (snapshots.length > mgr.maxSnapshots) then
      snapshots.tail
    else snapshots
  match saveSnapshots st snapshots with
  | .ok persisted => .ok (snapshot, persisted)
  | .error e => .error e

/-- The `{ auto: true, changes }` metadata object built by
`createAutoSnapshot`, encoded as a runtime value. -/
def autoMetadata (changes : List (String × FieldChange)) : Value :=
  .vObj 0 [("auto", .vBool true),
    ("changes", .vObj 0 (changes.map (fun kc =>
      (kc.1, .vObj 0 [("from", kc.2.fromVal), ("to", kc.2.toVal)]))))]

/-- The `changes` map of `createAutoSnapshot`: every configured field whose
current and previous values differ under `!==`. -/
def autoSnapshotChanges (formConfig : SnapshotFormConfig)
    (currentState prevState : StateV) : List (String × FieldChange) :=
  (formConfig.map Prod.fst).filterMap (fun key =>
    if ¬ strictEq (getField currentState key) (getField prevState key) then
      some (key, ⟨getField prevState key, getField currentState key⟩)
    else none)

/-- `createAutoSnapshot(formConfig, currentState, prevState)`: creates a
snapshot (with `auto: true` metadata and the shallow `changes` map) only when
some field marked `important` differs under `!==`; otherwise returns
`null`. -/
def createAutoSnapshot (mgr : FormSnapshotManager) (st : StorageState)
    (formConfig : SnapshotFormConfig) (currentState prevState : StateV)
    (id : String) (now : Int) :
    Except Unit (Option (FormSnapshot × List FormSnapshot)) :=
  let hasImportantChanges := formConfig.any (fun kv =>
    kv.2.important &&
      ¬ strictEq (getField currentState kv.1) (getField prevState kv.1))
  if hasImportantChanges then
    match createSnapshot mgr st currentState
        (some (autoMetadata (autoSnapshotChanges formConfig currentState prevState)))
        id now with
    | .ok r => .ok (some r)
    | .error e => .error e
  else .ok none

/-! ## Migration manager (`SnapshotMigrationManager`, formSnapshotMigration.ts)

Migration `up`/`down` functions are arbitrary user code that may throw (and
may be `async`; the manager awaits each step before the next, so steps are
modelled by their results).  A throwing step is an `Except.error` carrying
the rendering `${error}` of the thrown value. -/

/-- `Migration<TOld, TNew>`: a bidirectional step tagged with a version. -/
structure Migration where
  version : String
  description : String
  up : StateV → Except String StateV
  down : StateV → Except String StateV

/-- `SnapshotMigrationError`: message, failing version, and the snapshot
being migrated when the step threw. -/
structure SnapshotMigrationError where
  message : String
  version : String
  snapshot : FormSnapshot

/-- `SnapshotMigrationManager`: holds the registered migrations, kept sorted
ascending by `compareVersions` (re-sorted on every `addMigration`). -/
structure SnapshotMigrationManager where
  migrations : List Migration

/-- A manager with no registered migrations. -/
def emptyManager : SnapshotMigrationManager := { migrations := [] }

/-- `addMigration(migration)`: push, then stable-sort ascending by version. -/
def addMigration (mgr : SnapshotMigrationManager) (migration : Migration) :
    SnapshotMigrationManager :=
  { migrations :=
      sortByCmp (fun a b => compareVersions a.version b.version)
        (mgr.migrations ++ [migration]) }

/-- `snapshot.metadata?.migrations || []` (a non-array truthy value would
make the subsequent array spread throw in JavaScript; such degenerate
metadata also reads as `[]` here). -/
def migrationsOf (metadata : Option Value) : List Value :=
  match metadata with
  | some (.vObj _ fs) =>
    match getField fs "migrations" with
    | .vArr _ l => l
    | _ => []
  | _ => []

/-- The fields of `{...snapshot.metadata}` (spreading `undefined` yields an
empty object). -/
def spreadMeta (metadata : Option Value) : List (String × Value) :=
  match metadata with
  | some (.vObj _ fs) => fs
  | _ => []

/-- The `{version, direction, timestamp, description}` record appended to
`metadata.migrations` by each executed step. -/
def migrationRecord (migration : Migration) (direction : String) (now : Int) :
    Value :=
  .vObj 0 [("version", .vStr migration.version),
    ("direction", .vStr direction),
    ("timestamp", .vNum now),
    ("description", .vStr migration.description)]

/-- `executeMigration(snapshot, migration, direction)` (private): runs the
step's `up` or `down` on the state inside `try`; on success returns the new
snapshot with the step's version and the appended `metadata.migrations`
entry; a throw is wrapped in a `SnapshotMigrationError` carrying the step's
version and the snapshot being migrated. -/
def executeMigration (snapshot : FormSnapshot) (migration : Migration)
    (direction : String) (now : Int) :
    Except SnapshotMigrationError FormSnapshot :=
  let migrateFn := if direction == "up" then migration.up else migration.down
  match migrateFn snapshot.state with
  | .ok newState =>
    .ok { snapshot with
      state := newState
      version := migration.version
      metadata := some (.vObj 0 (setField (spreadMeta snapshot.metadata)
        "migrations"
        (.vArr 0 (migrationsOf snapshot.metadata ++
          [migrationRecord migration direction now])))) }
  | .error err =>
    .error
      { message := "Migration " ++ direction ++ " to version " ++
          migration.version ++ " failed: " ++ err,
        version := migration.version,
        snapshot := snapshot }

/-- The subset of registered migrations selected by `migrateToVersion`:
strictly above current and at-or-below target for an upgrade, at-or-below
current and strictly above target for a downgrade; sorted ascending for an
upgrade and descending for a downgrade. -/
def selectMigrations (mgr : SnapshotMigrationManager)
    (currentVersion targetVersion : String) (isUpgrade : Bool) :
    List Migration :=
  sortByCmp (fun a b =>
      if isUpgrade then compareVersions a.version b.version
      else compareVersions b.version a.version)
    (mgr.migrations.filter (fun m =>
      if isUpgrade then
        decide (compareVersions m.version currentVersion > 0) &&
          decide (compareVersions m.version targetVersion ≤ 0)
      else
        decide (compareVersions m.version currentVersion ≤ 0) &&
          decide (compareVersions m.version targetVersion > 0)))

/-- The `for (const migration of relevantMigrations)` loop: thread the
snapshot through `executeMigration`; a failure propagates immediately,
aborting the remaining steps. -/
def runChain (migrations : List Migration) (direction : String) (now : Int)
    (snapshot : FormSnapshot) : Except SnapshotMigrationError FormSnapshot :=
  match migrations with
  | [] => .ok snapshot
  | m :: rest =>
    match executeMigration snapshot m direction now with
    | .ok next => runChain rest direction now next
    | .error e => .error e

/-- `migrateToVersion(snapshot, targetVersion)`: identity when the versions
compare equal; otherwise runs the selected chain in direction
`isUpgrade = compare(target, current) > 0`. -/
def migrateToVersion (mgr : SnapshotMigrationManager)
    (snapshot : FormSnapshot) (targetVersion : String) (now : Int) :
    Except SnapshotMigrationError FormSnapshot :=
  if compareVersions snapshot.version targetVersion = 0 then .ok snapshot
  else
    let isUpgrade := decide (compareVersions targetVersion snapshot.version > 0)
    runChain (selectMigrations mgr snapshot.version targetVersion isUpgrade)
      (if isUpgrade then "up" else "down") now snapshot

/-- `migrateToLatest(snapshot)`: migrate to the highest registered version,
or return the snapshot unchanged when no migration is registered. -/
def migrateToLatest (mgr : SnapshotMigrationManager)
    (snapshot : FormSnapshot) (now : Int) :
    Except SnapshotMigrationError FormSnapshot :=
  match (mgr.migrations.getLast?).map Migration.version with
  | none => .ok snapshot
  | some latestVersion => migrateToVersion mgr snapshot latestVersion now

/-! ## Snapshot differ and validator (formSnapshotTools.ts) -/

/-- `SnapshotDiff<T>`: the four comparison buckets.  `added`/`removed` are
partial objects, `modified` maps keys to `FieldChange`, `unchanged` is a key
list. -/
structure SnapshotDiff where
  added : List (String × Value)
  removed : List (String × Value)
  modified : List (String × FieldChange)
  unchanged : List String

/-- The first loop of `compareSnapshots`: keys of the second state that the
first lacks, with their values. -/
def addedLoop (keys1 : List String) (state2 : StateV) :
    List String → List (String × Value)
  | [] => []
  | k :: ks =>
    if ¬ keys1.contains k then (k, getField state2 k) :: addedLoop keys1 state2 ks
    else addedLoop keys1 state2 ks

/-- The second loop of `compareSnapshots` over the first state's keys: each
key lands in exactly one of removed / modified / unchanged. -/
def diffLoop (keys2 : List String) (state1 state2 : StateV) :
    List String → List (String × Value) × List (String × FieldChange) × List String
  | [] => ([], [], [])
  | k :: ks =>
    let rest := diffLoop keys2 state1 state2 ks
    if ¬ keys2.contains k then
      ((k, getField state1 k) :: rest.1, rest.2.1, rest.2.2)
    else if ¬ jsonEq (getField state1 k) (getField state2 k) then
      (rest.1, (k, ⟨getField state1 k, getField state2 k⟩) :: rest.2.1, rest.2.2)
    else
      (rest.1, rest.2.1, k :: rest.2.2)

/-- `compareSnapshots(snapshot1, snapshot2)`: classify every key of either
state into added / removed / modified / unchanged, comparing values by
`JSON.stringify` equality. -/
def compareSnapshots (snapshot1 snapshot2 : FormSnapshot) : SnapshotDiff :=
  let keys1 := keysOf snapshot1.state
  let keys2 := keysOf snapshot2.state
  let added := addedLoop keys1 snapshot2.state keys2
  let rmu := diffLoop keys2 snapshot1.state snapshot2.state keys1
  { added := added, removed := rmu.1, modified := rmu.2.1,
    unchanged := rmu.2.2 }

/-- `SnapshotValidationError`. -/
structure SnapshotValidationError where
  field : Option String
  message : String
  code : String
  deriving Repr, DecidableEq

/-- `SnapshotValidationResult`. -/
structure SnapshotValidationResult where
  isValid : Bool
  errors : List SnapshotValidationError
  deriving Repr, DecidableEq

/-- A snapshot as the validator sees it at runtime: the `state` and
`metadata` slots hold arbitrary JavaScript values, since `validateSnapshot`
defensively re-checks the shapes the TypeScript types promise. -/
structure RawSnapshot where
  id : String
  timestamp : Int
  state : Value
  version : String
  metadata : Value

/-- The errors the field loop of `validateSnapshot` pushes for one
configured field: a `REQUIRED_FIELD` error when required and
null/undefined, then a type check against `{string, number, boolean,
array}` when a value is present. -/
def fieldErrors (field : String) (fieldConfig : SnapshotFieldConfig)
    (value : Value) : List SnapshotValidationError :=
  (if fieldConfig.required &&
      (strictEq value .vUndefined || strictEq value .vNull) then
    [{ field := some field,
        message := "Required field \"" ++ field ++ "\" is missing",
        code := "REQUIRED_FIELD" }]
  else []) ++
  (if ¬ strictEq value .vUndefined && ¬ strictEq value .vNull then
    match fieldConfig.type with
    | some "string" =>
      if typeofV value ≠ "string" then
        [{ field := some field,
            message := "Field \"" ++ field ++ "\" must be a string",
            code := "INVALID_TYPE" }]
      else []
    | some "number" =>
      if typeofV value ≠ "number" then
        [{ field := some field,
            message := "Field \"" ++ field ++ "\" must be a number",
            code := "INVALID_TYPE" }]
      else []
    | some "boolean" =>
      if typeofV value ≠ "boolean" then
        [{ field := some field,
            message := "Field \"" ++ field ++ "\" must be a boolean",
            code := "INVALID_TYPE" }]
      else []
    | some "array" =>
      if ¬ isArrayV value then
        [{ field := some field,
            message := "Field \"" ++ field ++ "\" must be an array",
            code := "INVALID_TYPE" }]
      else []
    | _ => []
  else [])

/-- `validateSnapshot(snapshot, config)`: short-circuits with
`INVALID_STATE` when the state is falsy or not object-typed; otherwise
pushes per-field errors for each configured field in order, then an
`INVALID_METADATA` error when metadata is truthy but not object-typed.
Total (the source never throws); `isValid` is `errors.length === 0`. -/
def validateSnapshot (snapshot : RawSnapshot) (config : SnapshotFormConfig) :
    SnapshotValidationResult :=
  if ¬ truthy snapshot.state || typeofV snapshot.state ≠ "object" then
    { isValid := false,
      errors := [{ field := none,
                   message := "Invalid snapshot state structure",
                   code := "INVALID_STATE" }] }
  else
    let errors := config.foldl (fun acc kv =>
      acc ++ fieldErrors kv.1 kv.2 (getProp snapshot.state kv.1)) []
    let errors := errors ++
      (if truthy snapshot.metadata && typeofV snapshot.metadata ≠ "object" then
        [{ field := none,
            message := "Invalid metadata structure",
            code := "INVALID_METADATA" }]
      else [])
    { isValid := errors.length == 0, errors := errors }

/-! ## Report generator (`generateReport`, formSnapshotReport.ts) -/

/-- The importance tier union type `'high' | 'medium' | 'low'`. -/
inductive Importance where
  | high
  | medium
  | low
  deriving Repr, DecidableEq

/-- The lowercase rendering used in the source's string contexts. -/
def Importance.toLower : Importance → String
  | .high => "high"
  | .medium => "medium"
  | .low => "low"

/-- `ProcessedSnapshot<T>` (changes is `undefined` when empty). -/
structure ProcessedSnapshot where
  snapshot : FormSnapshot
  changes : Option (List (String × FieldChange))
  importance : Importance

/-- `ReportOptions.filters`.  `fromDate`/`toDate` are carried as their
`getTime()` values. -/
structure ReportFilters where
  fromDate : Option Int := none
  toDate : Option Int := none
  versions : Option (List String) := none
  fields : Option (List String) := none
  onlyImportant : Option Bool := none

/-- `ReportOptions` (the destructured defaults `includeMetadata = true` and
`includeTimestamps = true` are unused by `generateReport`'s body). -/
structure ReportOptions where
  includeMetadata : Option Bool := none
  includeTimestamps : Option Bool := none
  format : Option String := none
  filters : Option ReportFilters := none

/-- The empty filter object (the `filters = {}` destructuring default). -/
def noFilters : ReportFilters := {}

/-- The summary block of a report.  `dateRange` endpoints are `Date` values,
carried as their epoch-millisecond timestamps. -/
structure ReportSummary where
  totalSnapshots : Nat
  dateRangeFrom : Int
  dateRangeTo : Int
  versions : List String
  totalChanges : Nat
  importantChanges : Nat

/-- `SnapshotReport<T>`. -/
structure SnapshotReport where
  summary : ReportSummary
  snapshots : List ProcessedSnapshot

/-- The sort-and-filter pipeline at the top of `generateReport`: stable sort
ascending by timestamp, then optional date-range, then version allow-list
(applied only when non-empty, per `filters.versions?.length`). -/
def filteredSnapshots (snapshots : List FormSnapshot)
    (filters : ReportFilters) : List FormSnapshot :=
  let l := sortByCmp (fun a b => a.timestamp - b.timestamp) snapshots
  let l := match filters.fromDate with
    | some d => l.filter (fun s => decide (s.timestamp ≥ d))
    | none => l
  let l := match filters.toDate with
    | some d => l.filter (fun s => decide (s.timestamp ≤ d))
    | none => l
  match filters.versions with
  | some vs => if vs.length ≠ 0 then l.filter (fun s => vs.contains s.version) else l
  | none => l

/-- The per-key test of `generateReport`'s change-collection loop:
`(!filters.fields || filters.fields.includes(field)) &&
JSON.stringify(snapshot.state[field]) !==
JSON.stringify(previousSnapshot.state[field])`. -/
def changeCond (fields : Option (List String)) (prevState curState : StateV)
    (k : String) : Bool :=
  (match fields with
   | some fs => fs.contains k
   | none => true) &&
  ¬ jsonEq (getField curState k) (getField prevState k)

/-- The change-collection loop of `generateReport` over
`Object.keys(snapshot.state)`: a key contributes a change when it passes the
`filters.fields` allow-list and its serialised value differs from the
predecessor's; the second component counts the changed keys whose config
entry is marked `important`. -/
def changesLoop (fields : Option (List String))
    (config : SnapshotFormConfig) (prevState curState : StateV) :
    List String → List (String × FieldChange) × Nat
  | [] => ([], 0)
  | k :: ks =>
    let rest := changesLoop fields config prevState curState ks
    if changeCond fields prevState curState k then
      ((k, ⟨getField prevState k, getField curState k⟩) :: rest.1,
        (if importantIn config k then 1 else 0) + rest.2)
    else rest

/-- The body of `generateReport`'s `map`: compute `changes` against the
predecessor (the first snapshot gets none), derive `importance`
(`high` when any changed field is important, else `medium` when more than 3
fields changed, else `low`), and store `changes` only when non-empty. -/
def processSnapshot (config : SnapshotFormConfig) (filters : ReportFilters)
    (previousSnapshot : Option FormSnapshot) (snapshot : FormSnapshot) :
    ProcessedSnapshot :=
  let cc := match previousSnapshot with
    | some prev =>
      changesLoop filters.fields config prev.state snapshot.state
        (keysOf snapshot.state)
    | none => ([], 0)
  let importance : Importance :=
    if cc.2 > 0 then .high
    else if cc.1.length > 3 then .medium
    else .low
  { snapshot := snapshot,
    changes := if cc.1.length > 0 then some cc.1 else none,
    importance := importance }

/-- The indexed `map` of `generateReport`: each snapshot is processed
against the filtered list's previous element. -/
def processFrom (config : SnapshotFormConfig) (filters : ReportFilters)
    (previousSnapshot : Option FormSnapshot) :
    List FormSnapshot → List ProcessedSnapshot
  | [] => []
  | s :: rest =>
    processSnapshot config filters previousSnapshot s ::
      processFrom config filters (some s) rest

/-- `Array.from(new Set(l))`: first occurrences in order. -/
def dedupFirst : List String → List String
  | [] => []
  | x :: xs => x :: (dedupFirst xs).filter (fun y => y ≠ x)

/-- `x || y` on a timestamp (a `0` timestamp is falsy). -/
def jsOrInt (x y : Int) : Int := if x ≠ 0 then x else y

/-- `generateReport(snapshots, config, options)` (with `now` for the
`Date.now()` fallbacks of an empty date range). -/
def generateReport (snapshots : List FormSnapshot)
    (config : SnapshotFormConfig) (options : ReportOptions) (now : Int) :
    SnapshotReport :=
  let filters := options.filters.getD noFilters
  let filtered := filteredSnapshots snapshots filters
  let processedSnapshots := processFrom config filters none filtered
  let finalSnapshots :=
    if filters.onlyImportant.getD false then
      processedSnapshots.filter (fun s => s.importance = .high)
    else processedSnapshots
  { summary :=
      { totalSnapshots := finalSnapshots.length,
        dateRangeFrom :=
          jsOrInt ((finalSnapshots.head?.map
            (fun s => s.snapshot.timestamp)).getD 0) now,
        dateRangeTo :=
          jsOrInt ((finalSnapshots.getLast?.map
            (fun s => s.snapshot.timestamp)).getD 0) now,
        versions :=
          sortByCmp compareVersions
            (dedupFirst (finalSnapshots.map (fun s => s.snapshot.version))),
        totalChanges := (finalSnapshots.filter
          (fun s => s.changes.isSome)).length,
        importantChanges := (finalSnapshots.filter
          (fun s => s.importance = .high)).length },
    snapshots := finalSnapshots }

/-! ## String utilities for the formatters

Lean's built-in `String` traversals are compiled by well-founded recursion
and do not reduce definitionally, so the formatters' character work is done
on `String.data` with structural recursion. -/

/-- `Array.prototype.join(sep)`. -/
def joinSep (sep : String) : List String → String
  | [] => ""
  | [s] => s
  | s :: rest => s ++ sep ++ joinSep sep rest

/-- Decimal digits of a natural number (fuel-driven so it reduces). -/
def natDigits : Nat → Nat → List Char
  | 0, _ => []
  | fuel + 1, n =>
    if n < 10 then [Char.ofNat (48 + n)]
    else natDigits fuel (n / 10) ++ [Char.ofNat (48 + n % 10)]

/-- Decimal rendering of a natural number. -/
def natToStr (n : Nat) : String := String.mk (natDigits (n + 1) n)

/-- Decimal rendering of an integer (JavaScript number formatting for the
integral values the engine handles). -/
def intToStr : Int → String
  | .ofNat n => natToStr n
  | .negSucc n => "-" ++ natToStr (n + 1)

/-- Abstraction of `Date.prototype.toLocaleDateString`: some locale-dependent
rendering of the timestamp; represented by its decimal value, which is
injective like any date rendering and never contains markup characters. -/
def toLocaleDateString (t : Int) : String := intToStr t

/-- Abstraction of `Date.prototype.toLocaleString` (same representation). -/
def toLocaleString (t : Int) : String := intToStr t

/-- Abstraction of `Date.prototype.toISOString` (same representation). -/
def toISOString (t : Int) : String := intToStr t

/-- Whether `needle` is a prefix of `hay`. -/
def prefixOfCh : List Char → List Char → Bool
  | [], _ => true
  | _ :: _, [] => false
  | a :: as', b :: bs => a == b && prefixOfCh as' bs

/-- Whether `needle` occurs as a contiguous substring of `hay`. -/
def containsSub (needle : List Char) : List Char → Bool
  | [] => needle.isEmpty
  | h :: hs => prefixOfCh needle (h :: hs) || containsSub needle hs

/-- Substring occurrence on strings. -/
def containsSubstr (s sub : String) : Bool := containsSub sub.data s.data

/-- JSON string-content escaping (backslash, quote, and the control
characters the engine's data can carry). -/
def jsonEscapeChar (c : Char) : List Char :=
  if c = '\\' then ['\\', '\\']
  else if c = '"' then ['\\', '"']
  else if c = '\n' then ['\\', 'n']
  else if c = '\r' then ['\\', 'r']
  else if c = '\t' then ['\\', 't']
  else [c]

/-- A JSON string literal. -/
def jsonStrLit (s : String) : String :=
  "\"" ++ String.mk ((s.data.map jsonEscapeChar).flatten) ++ "\""

mutual

/-- Compact `JSON.stringify` of a (jnorm-normalised) value. -/
def serCompact : Value → String
  | .vNull => "null"
  | .vUndefined => "null"
  | .vBool b => if b then "true" else "false"
  | .vNum n => intToStr n
  | .vStr s => jsonStrLit s
  | .vArr _ xs => "[" ++ joinSep "," (serCompactList xs) ++ "]"
  | .vObj _ fs => "\x7b" ++ joinSep "," (serCompactFields fs) ++ "\x7d"

/-- Compact serialisation of array elements. -/
def serCompactList : List Value → List String
  | [] => []
  | x :: xs => serCompact x :: serCompactList xs

/-- Compact serialisation of object fields. -/
def serCompactFields : List (String × Value) → List String
  | [] => []
  | (k, v) :: fs => (jsonStrLit k ++ ":" ++ serCompact v) :: serCompactFields fs

end

/-- The indentation for depth `d` under `JSON.stringify(x, null, 2)`. -/
def jsonIndent (d : Nat) : String := String.mk (List.replicate (2 * d) ' ')

mutual

/-- `JSON.stringify(x, null, 2)` of a (jnorm-normalised) value at nesting
depth `d`: composites with content break onto indented lines. -/
def serPretty (d : Nat) : Value → String
  | .vNull => "null"
  | .vUndefined => "null"
  | .vBool b => if b then "true" else "false"
  | .vNum n => intToStr n
  | .vStr s => jsonStrLit s
  | .vArr _ [] => "[]"
  | .vArr _ (x :: xs) =>
    "[\n" ++ joinSep ",\n" (serPrettyList (d + 1) (x :: xs)) ++ "\n" ++
      jsonIndent d ++ "]"
  | .vObj _ [] => "\x7b\x7d"
  | .vObj _ (f :: fs) =>
    "\x7b\n" ++ joinSep ",\n" (serPrettyFields (d + 1) (f :: fs)) ++ "\n" ++
      jsonIndent d ++ "\x7d"

/-- Pretty serialisation of array elements (each on its own line). -/
def serPrettyList (d : Nat) : List Value → List String
  | [] => []
  | x :: xs => (jsonIndent d ++ serPretty d x) :: serPrettyList d xs

/-- Pretty serialisation of object fields (each on its own line). -/
def serPrettyFields (d : Nat) : List (String × Value) → List String
  | [] => []
  | (k, v) :: fs =>
    (jsonIndent d ++ jsonStrLit k ++ ": " ++ serPretty d v) ::
      serPrettyFields d fs

end

/-- `JSON.stringify(v)` as interpolated into a template string (top-level
`undefined` stringifies to the value `undefined`, which interpolates as the
text `undefined`). -/
def jsonStringify (v : Value) : String :=
  match jnorm v with
  | .vUndefined => "undefined"
  | w => serCompact w

/-- `JSON.stringify(v, null, 2)` as interpolated into a template string. -/
def jsonStringify2 (v : Value) : String :=
  match jnorm v with
  | .vUndefined => "undefined"
  | w => serPretty 0 w

/-! ## HTML report formatter (formSnapshotHtml.ts) -/

/-- The embedded stylesheet constant `css` of the HTML formatter. -/
def css : String :=
  "\n<style>\n  :root \x7b\n    --primary: #3b82f6;\n    --success: #22c55e;\n    --warning: #eab308;\n    --danger: #ef4444;\n    --gray: #6b7280;\n  \x7d\n  \n  body \x7b\n    font-family: -apple-system, BlinkMacSystemFont, \"Segoe UI\", Roboto, sans-serif;\n    line-height: 1.5;\n    max-width: 1200px;\n    margin: 0 auto;\n    padding: 2rem;\n    color: #1f2937;\n  \x7d\n  \n  @media (prefers-color-scheme: dark) \x7b\n    body \x7b\n      background-color: #111827;\n      color: #f9fafb;\n    \x7d\n  \x7d\n  \n  h1, h2, h3, h4 \x7b margin-top: 2rem; \x7d\n  \n  .card \x7b\n    background: white;\n    border-radius: 0.5rem;\n    box-shadow: 0 1px 3px rgba(0,0,0,0.1);\n    padding: 1.5rem;\n    margin: 1rem 0;\n  \x7d\n  \n  @media (prefers-color-scheme: dark) \x7b\n    .card \x7b\n      background: #1f2937;\n    \x7d\n  \x7d\n  \n  .table \x7b\n    width: 100%;\n    border-collapse: collapse;\n    margin: 1rem 0;\n  \x7d\n  \n  .table th,\n  .table td \x7b\n    padding: 0.75rem;\n    text-align: left;\n    border-bottom: 1px solid #e5e7eb;\n  \x7d\n  \n  @media (prefers-color-scheme: dark) \x7b\n    .table th,\n    .table td \x7b\n      border-color: #374151;\n    \x7d\n  \x7d\n  \n  .badge \x7b\n    display: inline-block;\n    padding: 0.25rem 0.5rem;\n    border-radius: 9999px;\n    font-size: 0.875rem;\n    font-weight: 500;\n  \x7d\n  \n  .badge-high \x7b background: #fee2e2; color: #dc2626; \x7d\n  .badge-medium \x7b background: #fef3c7; color: #d97706; \x7d\n  .badge-low \x7b background: #ecfdf5; color: #059669; \x7d\n  \n  @media (prefers-color-scheme: dark) \x7b\n    .badge-high \x7b background: #7f1d1d; color: #fca5a5; \x7d\n    .badge-medium \x7b background: #78350f; color: #fcd34d; \x7d\n    .badge-low \x7b background: #064e3b; color: #6ee7b7; \x7d\n  \x7d\n  \n  .changes \x7b\n    display: grid;\n    grid-template-columns: 1fr 1fr;\n    gap: 1rem;\n    padding: 0.75rem;\n    background: #f9fafb;\n    border-radius: 0.375rem;\n    margin: 0.5rem 0;\n  \x7d\n  \n  @media (prefers-color-scheme: dark) \x7b\n    .changes \x7b\n      background: #374151;\n    \x7d\n  \x7d\n  \n  .changed-value \x7b\n    color: var(--primary);\n    font-weight: 500;\n  \x7d\n  \n  details summary \x7b\n    cursor: pointer;\n    padding: 1rem;\n    background: #f3f4f6;\n    border-radius: 0.375rem;\n  \x7d\n  \n  @media (prefers-color-scheme: dark) \x7b\n    details summary \x7b\n      background: #1f2937;\n    \x7d\n  \x7d\n</style>"

/-- One character of `htmlEscape`.  The source chains five global
`.replace` calls starting with `&`; since the replacement text introduced by
the later passes is never rescanned by an earlier pass, the chain equals
this single left-to-right pass. -/
def htmlEscapeChar (c : Char) : List Char :=
  if c = '&' then "&amp;".data
  else if c = '<' then "&lt;".data
  else if c = '>' then "&gt;".data
  else if c = '"' then "&quot;".data
  else if c = Char.ofNat 39 then "&#039;".data
  else [c]

/-- `htmlEscape(text)` (formSnapshotHtml.ts). -/
def htmlEscape (text : String) : String :=
  String.mk (text.data.map htmlEscapeChar).flatten

/-- `formatChangesTable(changes)`: one `<tr>` per change (the source's
filter of `undefined` entries is the identity here, every entry being
present), joined with `''`. -/
def formatChangesTable (changes : List (String × FieldChange)) : String :=
  let rows := joinSep "" (changes.map (fun kc =>
    "\n      <tr>\n        <td>" ++ htmlEscape kc.1 ++
      "</td>\n        <td><pre>" ++
      htmlEscape (jsonStringify2 kc.2.fromVal) ++
      "</pre></td>\n        <td><pre>" ++
      htmlEscape (jsonStringify2 kc.2.toVal) ++
      "</pre></td>\n      </tr>\n    "))
  "\n    <table class=\"table\">\n      <thead>\n        <tr>\n          " ++
    "<th>Field</th>\n          <th>Previous Value</th>\n          " ++
    "<th>New Value</th>\n        </tr>\n      </thead>\n      <tbody>\n        " ++
    rows ++ "\n      </tbody>\n    </table>\n  "

/-- `importance.charAt(0).toUpperCase() + importance.slice(1)` for the three
members of the importance union. -/
def capitalizeImportance : Importance → String
  | .high => "High"
  | .medium => "Medium"
  | .low => "Low"

/-- `formatSnapshotSection(processedSnapshot)`: the per-snapshot card, with
`htmlEscape` applied to the version, field names, serialised values, and
metadata.  (The `importanceColors` record in the source is computed but
never read.) -/
def formatSnapshotSection (processedSnapshot : ProcessedSnapshot) : String :=
  let changesBlock :=
    match processedSnapshot.changes with
    | some l =>
      if l.length > 0 then
        "\n        <div style=\"margin-top: 1rem;\">\n          " ++
          "<h4>Changes</h4>\n          " ++ formatChangesTable l ++
          "\n        </div>\n      "
      else ""
    | none => ""
  let metadataBlock :=
    match processedSnapshot.snapshot.metadata with
    | some m =>
      if truthy m then
        "\n        <div style=\"margin-top: 1rem;\">\n          " ++
          "<h4>Metadata</h4>\n          " ++
          "<pre style=\"background: #f3f4f6; padding: 1rem; " ++
          "border-radius: 0.375rem;\">\n" ++
          htmlEscape (jsonStringify2 m) ++
          "\n          </pre>\n        </div>\n      "
      else ""
    | none => ""
  "\n    <div class=\"card\">\n      <div style=\"display: flex; " ++
    "justify-content: space-between; align-items: center;\">\n        " ++
    "<h3 style=\"margin: 0;\">\n          Version " ++
    htmlEscape processedSnapshot.snapshot.version ++
    "\n          <span class=\"badge badge-" ++
    processedSnapshot.importance.toLower ++ "\">\n            " ++
    capitalizeImportance processedSnapshot.importance ++
    "\n          </span>\n        </h3>\n        <time datetime=\"" ++
    toISOString processedSnapshot.snapshot.timestamp ++ "\">\n          " ++
    toLocaleString processedSnapshot.snapshot.timestamp ++
    "\n        </time>\n      </div>\n      " ++ changesBlock ++
    "\n      " ++ metadataBlock ++ "\n    </div>\n  "

/-- `formatHtmlReport(report)`: the full document.  Note that the summary's
version list is interpolated as `report.summary.versions.join(', ')` with no
`htmlEscape`. -/
def formatHtmlReport (report : SnapshotReport) : String :=
  let high := report.snapshots.filter (fun s => s.importance = .high)
  let medium := report.snapshots.filter (fun s => s.importance = .medium)
  let low := report.snapshots.filter (fun s => s.importance = .low)
  let highBlock :=
    if high.length > 0 then
      "\n    <h3>🔴 High Importance Changes</h3>\n    " ++
        joinSep "\n" (high.map formatSnapshotSection) ++ "\n  "
    else ""
  let mediumBlock :=
    if medium.length > 0 then
      "\n    <h3>🟡 Medium Importance Changes</h3>\n    " ++
        joinSep "\n" (medium.map formatSnapshotSection) ++ "\n  "
    else ""
  let lowBlock :=
    if low.length > 0 then
      "\n    <h3>🟢 Low Importance Changes</h3>\n    <details>\n      " ++
        "<summary>Show low importance changes</summary>\n      " ++
        joinSep "\n" (low.map formatSnapshotSection) ++
        "\n    </details>\n  "
    else ""
  "\n<!DOCTYPE html>\n<html lang=\"en\">\n<head>\n  " ++
    "<meta charset=\"UTF-8\">\n  " ++
    "<meta name=\"viewport\" content=\"width=device-width, initial-scale=1.0\">\n  " ++
    "<title>Form Snapshot Report</title>\n  " ++ css ++
    "\n</head>\n<body>\n  <h1>Form Snapshot Report</h1>\n  \n  " ++
    "<div class=\"card\">\n    <h2>Summary</h2>\n    " ++
    "<table class=\"table\">\n      <tbody>\n        <tr>\n          " ++
    "<th>Total Snapshots</th>\n          <td>" ++
    natToStr report.summary.totalSnapshots ++
    "</td>\n        </tr>\n        <tr>\n          <th>Date Range</th>\n          <td>\n            " ++
    toLocaleDateString report.summary.dateRangeFrom ++ " - \n            " ++
    toLocaleDateString report.summary.dateRangeTo ++
    "\n          </td>\n        </tr>\n        <tr>\n          <th>Versions</th>\n          <td>" ++
    joinSep ", " report.summary.versions ++
    ("</td>\n        </tr>\n        <tr>\n          <th>Total Changes</th>\n          <td>" ++
      natToStr report.summary.totalChanges ++
      "</td>\n        </tr>\n        <tr>\n          <th>Important Changes</th>\n          <td>" ++
      natToStr report.summary.importantChanges ++
      "</td>\n        </tr>\n      </tbody>\n    </table>\n  </div>\n\n  <h2>Snapshots</h2>\n  \n  " ++
      highBlock ++ "\n  \n  " ++ mediumBlock ++ "\n  \n  " ++ lowBlock ++
      "\n</body>\n</html>")

/-! ## Markdown report formatter (formSnapshotMarkdown.ts) -/

/-- One character of `mdEscape`: the global regex replace
`/[*_`[\]]/g` with `'\\$&'`. -/
def mdEscapeChar (c : Char) : List Char :=
  if c = '*' || c = '_' || c = Char.ofNat 96 || c = '[' || c = ']' then
    ['\\', c]
  else [c]

/-- `mdEscape(text)`. -/
def mdEscape (text : String) : String :=
  String.mk (text.data.map mdEscapeChar).flatten

/-- `mdTable(headers, rows)`. -/
def mdTable (headers : List String) (rows : List (List String)) : String :=
  let headerRow := "| " ++ joinSep " | " headers ++ " |"
  let separatorRow := "| " ++ joinSep " | " (headers.map (fun _ => "---")) ++ " |"
  let dataRows := rows.map (fun row => "| " ++ joinSep " | " row ++ " |")
  joinSep "\n" (headerRow :: separatorRow :: dataRows)

/-- `mdDetails(summary, content)`. -/
def mdDetails (summary content : String) : String :=
  "<details>\n<summary>" ++ summary ++ "</summary>\n\n" ++ content ++
    "\n</details>"

/-- `mdCodeBlock(content, language)`. -/
def mdCodeBlock (content language : String) : String :=
  "```" ++ language ++ "\n" ++ content ++ "\n```"

/-- `formatChangesAsTable(changes)` (the `undefined`-entry filter is the
identity here). -/
def formatChangesAsTable (changes : List (String × FieldChange)) : String :=
  mdTable ["Field", "Previous Value", "New Value"]
    (changes.map (fun kc =>
      [mdEscape kc.1, mdEscape (jsonStringify kc.2.fromVal),
        mdEscape (jsonStringify kc.2.toVal)]))

/-- `addSnapshotSection(processedSnapshot, lines)`: the lines pushed for one
snapshot (the source mutates a line buffer; modelled as the pushed list). -/
def addSnapshotSection (processedSnapshot : ProcessedSnapshot) :
    List String :=
  ["#### Version " ++ mdEscape processedSnapshot.snapshot.version, "",
    "*" ++ toLocaleString processedSnapshot.snapshot.timestamp ++ "*", ""] ++
  (match processedSnapshot.changes with
   | some l =>
     if l.length > 0 then ["Changes:", "", formatChangesAsTable l, ""]
     else []
   | none => []) ++
  (match processedSnapshot.snapshot.metadata with
   | some m =>
     if truthy m then
       ["Metadata:", "", mdCodeBlock (jsonStringify2 m) "json", ""]
     else []
   | none => []) ++
  ["---", ""]

/-- `formatMarkdownReport(report)`: summary table (the versions row is the
unescaped `report.summary.versions.join(', ')`), then the snapshots grouped
by importance, low-importance ones inside a collapsible `<details>`. -/
def formatMarkdownReport (report : SnapshotReport) : String :=
  let introLines := ["# Form Snapshot Report", "", "## Summary", "",
    mdTable ["Metric", "Value"]
      [["Total Snapshots", natToStr report.summary.totalSnapshots],
        ["Date Range", toLocaleDateString report.summary.dateRangeFrom ++
          " - " ++ toLocaleDateString report.summary.dateRangeTo],
        ["Versions", joinSep ", " report.summary.versions],
        ["Total Changes", natToStr report.summary.totalChanges],
        ["Important Changes", natToStr report.summary.importantChanges]],
    "", "## Snapshots", ""]
  let high := report.snapshots.filter (fun s => s.importance = .high)
  let medium := report.snapshots.filter (fun s => s.importance = .medium)
  let low := report.snapshots.filter (fun s => s.importance = .low)
  let highLines :=
    if high.length > 0 then
      ["### 🔴 High Importance Changes", ""] ++
        (high.map addSnapshotSection).flatten
    else []
  let mediumLines :=
    if medium.length > 0 then
      ["### 🟡 Medium Importance Changes", ""] ++
        (medium.map addSnapshotSection).flatten
    else []
  let lowLines :=
    if low.length > 0 then
      ["### 🟢 Low Importance Changes", ""] ++
        [mdDetails "Show low importance changes"
          (joinSep "\n" (low.map addSnapshotSection).flatten)]
    else []
  joinSep "\n" (introLines ++ highLines ++ mediumLines ++ lowLines)

/-! ## Specification-side definitions

These definitions follow the specification's words (not the source) and are
compared against the embedded source functions by the refinement theorems
below. -/

/-- The specification's description of §4.5's per-snapshot change set: "the
same per-field shallow-changed check as §4.1's auto-snapshot logic" (strict
`!==` per configured field), "restricted to `filters.fields` if given". -/
def autoStyleChanges (formConfig : SnapshotFormConfig)
    (fields : Option (List String)) (currentState prevState : StateV) :
    List (String × FieldChange) :=
  (formConfig.map Prod.fst).filterMap (fun key =>
    if (match fields with
        | some fs => fs.contains key
        | none => true) &&
        ¬ strictEq (getField currentState key) (getField prevState key) then
      some (key, ⟨getField prevState key, getField currentState key⟩)
    else none)

/-- What `generateReport` actually computes per non-first snapshot: the
per-field serialised-inequality (`JSON.stringify`) check over the keys of
the current snapshot's state, restricted to `filters.fields` if given. -/
def serializedDiff (fields : Option (List String))
    (prevState curState : StateV) : List (String × FieldChange) :=
  (keysOf curState).filterMap (fun k =>
    if changeCond fields prevState curState k then
      some (k, ⟨getField prevState k, getField curState k⟩)
    else none)

/-- The number of changed fields marked `important` in the config. -/
def countImportantChanges (config : SnapshotFormConfig)
    (changes : List (String × FieldChange)) : Nat :=
  (changes.filter (fun kc => importantIn config kc.1)).length

/-- Zero-padding of a segment list to length `n`. -/
def padZero (l : List Int) (n : Nat) : List Int :=
  l ++ List.replicate (n - l.length) 0

/-- Lexicographic comparison of integer lists (used on equal-length padded
segment lists). -/
def lexOrdInt : List Int → List Int → Ordering
  | [], [] => .eq
  | [], _ :: _ => .lt
  | _ :: _, [] => .gt
  | a :: as', b :: bs =>
    if a < b then .lt else if b < a then .gt else lexOrdInt as' bs

/-- The specification's version order: pad the dotted-numeric segment lists
with `0` to a common length and compare segment-by-segment, the first
unequal segment deciding. -/
def numericSegCompare (as' bs : List Int) : Ordering :=
  lexOrdInt (padZero as' (max as'.length bs.length))
    (padZero bs (max as'.length bs.length))

/-- Plain lexical (character-by-character) string order, the order the
specification warns against using for versions. -/
def lexLtCh : List Char → List Char → Bool
  | [], [] => false
  | [], _ :: _ => true
  | _ :: _, [] => false
  | a :: as', b :: bs =>
    if a < b then true else if b < a then false else lexLtCh as' bs

/-- Lexical string order on strings. -/
def stringLexLt (a b : String) : Bool := lexLtCh a.data b.data

/-- A placeholder processed snapshot (default for witness lookups). -/
def defaultProcessed : ProcessedSnapshot :=
  { snapshot := emptySnapshot, changes := none, importance := .low }

/-- The error payload of an `Except`, with a default. -/
def exceptError (d : ε) : Except ε α → ε
  | .error e => e
  | .ok _ => d

/-- The success payload of an `Except`, with a default. -/
def exceptValue (d : α) : Except ε α → α
  | .ok a => a
  | .error _ => d

/-- Whether an `Except` is a success. -/
def exceptIsOk : Except ε α → Bool
  | .ok _ => true
  | .error _ => false

/-- A concrete migration used in witnesses: adds a field, with a trivial
down. -/
def migrationOne : Migration :=
  { version := "1.1.0", description := "add x",
    up := fun s => .ok (s ++ [("x", .vNum 1)]),
    down := fun s => .ok s }

/-- A concrete migration used in witnesses whose `up` throws. -/
def migrationBoom : Migration :=
  { version := "1.2.0", description := "boom",
    up := fun _ => .error "boom",
    down := fun s => .ok s }

/-- A witness manager holding `migrationOne` and `migrationBoom`. -/
def managerW : SnapshotMigrationManager :=
  addMigration (addMigration emptyManager migrationOne) migrationBoom

/-- A witness snapshot at version `"1.0.0"`. -/
def snapW : FormSnapshot :=
  { id := "s", timestamp := 1, state := [("a", .vNum 0)],
    version := "1.0.0", metadata := none }

/-- The witness intermediate snapshot after `migrationOne` succeeds. -/
def sPreW : FormSnapshot :=
  exceptValue emptySnapshot (runChain [migrationOne] "up" 7 snapW)

/-- The witness migration error produced when `migrationBoom` throws. -/
def errW : SnapshotMigrationError :=
  exceptError { message := "", version := "", snapshot := emptySnapshot }
    (executeMigration sPreW migrationBoom "up" 7)

/-- A witness predecessor snapshot for the report theorems. -/
def prevSC : FormSnapshot :=
  { id := "p", timestamp := 1, state := [("a", .vNum 1), ("b", .vNum 1)],
    version := "1.0", metadata := none }

/-- A witness current snapshot: only the unconfigured field `"b"` changed
(and only serialised-unequal, not reference-unequal, values count as
changed in the report path). -/
def curSC : FormSnapshot :=
  { id := "c", timestamp := 2, state := [("a", .vNum 1), ("b", .vNum 2)],
    version := "1.0", metadata := none }

/-- The witness config: only `"a"` is configured (and important). -/
def cfgC : SnapshotFormConfig := [("a", { important := true })]

/-- The witness config for the importance boundaries: `"a"` important, four
other fields configured without the flag. -/
def cfg5 : SnapshotFormConfig :=
  [("a", { important := true }), ("b", {}), ("c", {}), ("d", {}), ("e", {})]

/-- Witness history: baseline, then 3 non-important changes, then 4
non-important changes, then 1 important change. -/
def snapsW : List FormSnapshot :=
  [{ id := "0", timestamp := 1,
     state := [("a", .vNum 0), ("b", .vNum 0), ("c", .vNum 0),
       ("d", .vNum 0), ("e", .vNum 0)],
     version := "1.0", metadata := none },
   { id := "1", timestamp := 2,
     state := [("a", .vNum 0), ("b", .vNum 1), ("c", .vNum 1),
       ("d", .vNum 1), ("e", .vNum 0)],
     version := "1.0", metadata := none },
   { id := "2", timestamp := 3,
     state := [("a", .vNum 0), ("b", .vNum 2), ("c", .vNum 2),
       ("d", .vNum 2), ("e", .vNum 2)],
     version := "1.0", metadata := none },
   { id := "3", timestamp := 4,
     state := [("a", .vNum 1), ("b", .vNum 2), ("c", .vNum 2),
       ("d", .vNum 2), ("e", .vNum 2)],
     version := "1.0", metadata := none }]

/-- The failing report for the formatter-escaping claim: a report whose
summary version list carries markup-significant user-controlled strings
(snapshot versions are caller data). -/
def reportX : SnapshotReport :=
  { summary := { totalSnapshots := 0, dateRangeFrom := 0, dateRangeTo := 0,
                 versions := ["<script>", "v*1"], totalChanges := 0,
                 importantChanges := 0 },
    snapshots := [] }

/-! ## Theorems -/

/-- Claim C9: for every snapshot (with arbitrary runtime `state` and
`metadata` values) and every field configuration, `validateSnapshot` is a
total function returning a result object (the embedding is total, modelling
that the source never throws), and its `isValid` flag is `true` exactly when
its `errors` list is empty. -/
theorem validateSnapshot_isValid_iff_no_errors (snapshot : RawSnapshot)
    (config : SnapshotFormConfig) :
    (validateSnapshot snapshot config).isValid = true ↔
      (validateSnapshot snapshot config).errors = [] := by
  unfold validateSnapshot
  split
  · simp
  · simp [beq_iff_eq, List.length_eq_zero]

/-- Claim C6: with `maxSnapshots = 3` and auto-cleanup enabled, creating a
4th snapshot on a store currently holding `[s1, s2, s3]` persists exactly 3
snapshots: the oldest (`s1`) is evicted and the 3 newest remain in their
original relative order, the new snapshot last. -/
theorem createSnapshot_eviction_boundary (s1 s2 s3 : FormSnapshot)
    (state : StateV) (metadata : Option Value) (id : String) (now : Int) :
    createSnapshot { maxSnapshots := 3, autoCleanup := true }
        { readResult := .ok (some [s1, s2, s3]), writeOk := true }
        state metadata id now =
      .ok ({ id := id, timestamp := now, state := state, version := "1.0",
              metadata := metadata },
        [s2, s3,
          { id := id, timestamp := now, state := state, version := "1.0",
            metadata := metadata }]) ∧
    [s2, s3,
      ({ id := id, timestamp := now, state := state, version := "1.0",
         metadata := metadata } : FormSnapshot)].length = 3 := by
  exact ⟨rfl, rfl⟩

/-- Claim C10: every snapshot the store creates (directly or via
`createAutoSnapshot`) carries the constant version string `"1.0"`,
independent of all arguments; no caller-supplied or three-segment version is
ever assigned. -/
theorem createSnapshot_version_constant :
    (∀ (mgr : FormSnapshotManager) (st : StorageState) (state : StateV)
        (metadata : Option Value) (id : String) (now : Int)
        (r : FormSnapshot × List FormSnapshot),
      createSnapshot mgr st state metadata id now = .ok r →
        r.1.version = "1.0") ∧
    (∀ (mgr : FormSnapshotManager) (st : StorageState)
        (formConfig : SnapshotFormConfig) (currentState prevState : StateV)
        (id : String) (now : Int) (r' : FormSnapshot × List FormSnapshot),
      createAutoSnapshot mgr st formConfig currentState prevState id now =
        .ok (some r') → r'.1.version = "1.0") := by
  have base : ∀ (mgr : FormSnapshotManager) (st : StorageState)
      (state : StateV) (metadata : Option Value) (id : String) (now : Int)
      (r : FormSnapshot × List FormSnapshot),
      createSnapshot mgr st state metadata id now = .ok r →
        r.1.version = "1.0" := by
    intro mgr st state metadata id now r h
    unfold createSnapshot saveSnapshots at h
    dsimp only at h
    split at h
    · cases h; rfl
    · cases h
  refine ⟨base, ?_⟩
  intro mgr st formConfig currentState prevState id now r' h
  unfold createAutoSnapshot at h
  split at h
  · rename_i rr heq
    dsimp only at h
    split at h
    · cases h
      exact base _ _ _ _ _ _ _ heq
    · simp at h
  · dsimp only at h
    split at h
    · cases h
    · simp at h

/-- Witness for C10: a direct creation and an auto-snapshot creation (on a
config whose important field changed) both yield version `"1.0"`. -/
theorem createSnapshot_version_constant_witness :
    (exceptValue (emptySnapshot, [])
      (createSnapshot { maxSnapshots := 3, autoCleanup := true }
        { readResult := .ok none, writeOk := true }
        [("a", .vNum 1)] none "id1" 5)).1.version = "1.0" ∧
    ((exceptValue none
      (createAutoSnapshot { maxSnapshots := 3, autoCleanup := true }
        { readResult := .ok none, writeOk := true }
        [("a", { important := true })]
        [("a", .vNum 2)] [("a", .vNum 1)] "id2" 6)).getD
          (emptySnapshot, [])).1.version = "1.0" := by
  constructor
  · exact createSnapshot_version_constant.1 { maxSnapshots := 3, autoCleanup := true }
      { readResult := .ok none, writeOk := true } [("a", .vNum 1)] none "id1" 5 _ rfl
  · exact createSnapshot_version_constant.2 { maxSnapshots := 3, autoCleanup := true }
      { readResult := .ok none, writeOk := true } [("a", { important := true })]
      [("a", .vNum 2)] [("a", .vNum 1)] "id2" 6 _ rfl

/-- Claim C2 (counterexample): `createSnapshot` does not fail silently on a
storage *write* throw: with a storage whose `setItem` throws, the exception
propagates to the caller as `.error` instead of a best-effort result. -/
theorem createSnapshot_write_failure_propagates :
    createSnapshot { maxSnapshots := 10, autoCleanup := true }
        { readResult := .ok (some []), writeOk := false }
        [("a", .vNum 1)] none "id" 5 = .error () := rfl

/-- Claim C2 (amended): if the storage *read* throws (e.g. a corrupt
persisted payload), `createSnapshot` fails silently — the stored history is
read as empty and the call still returns a best-effort result, never
propagating the read exception (likewise every read through
`getSnapshots`); a storage *write* throw, however, does propagate to the
caller. -/
theorem createSnapshot_read_silent_write_propagates :
    (∀ w : Bool, getSnapshots { readResult := .error (), writeOk := w } = []) ∧
    (∀ (mgr : FormSnapshotManager) (state : StateV) (metadata : Option Value)
        (id : String) (now : Int),
      exceptIsOk (createSnapshot mgr
        { readResult := .error (), writeOk := true } state metadata id now) =
          true) ∧
    (∀ (mgr : FormSnapshotManager) (st : StorageState) (state : StateV)
        (metadata : Option Value) (id : String) (now : Int),
      st.writeOk = false →
        createSnapshot mgr st state metadata id now = .error ()) := by
  refine ⟨fun w => rfl, ?_, ?_⟩
  · intro mgr state metadata id now
    unfold createSnapshot saveSnapshots
    dsimp only
    split
    · rfl
    · rename_i heq
      simp at heq
  · intro mgr st state metadata id now h
    unfold createSnapshot saveSnapshots
    rw [h]
    dsimp only
    split
    · rename_i heq
      simp at heq
    · rfl

/-- Witness for C2 (amended): a concrete store whose write throws makes
`createSnapshot` return the storage error. -/
theorem createSnapshot_read_silent_write_propagates_witness :
    createSnapshot { maxSnapshots := 10, autoCleanup := true }
        { readResult := .ok (some []), writeOk := false }
        [("b", .vStr "x")] none "id9" 9 = .error () :=
  createSnapshot_read_silent_write_propagates.2.2
    { maxSnapshots := 10, autoCleanup := true }
    { readResult := .ok (some []), writeOk := false }
    [("b", .vStr "x")] none "id9" 9 rfl

/-- Helper: keys produced by the added-keys loop of `compareSnapshots`. -/
theorem addedLoop_keys (keys1 : List String) (st2 : StateV) :
    ∀ l : List String, (addedLoop keys1 st2 l).map Prod.fst =
      l.filter (fun k => !(keys1.contains k)) := by
  intro l
  induction l with
  | nil => rfl
  | cons k ks ih =>
    by_cases h : k ∈ keys1 <;>
      simp [addedLoop, h, ih, List.elem_iff]

/-- Helper: keys produced by the removed/modified/unchanged loop of
`compareSnapshots`. -/
theorem diffLoop_keys (keys2 : List String) (s1 s2 : StateV)
    (l : List String) :
    (diffLoop keys2 s1 s2 l).1.map Prod.fst =
        l.filter (fun k => !(keys2.contains k)) ∧
    (diffLoop keys2 s1 s2 l).2.1.map Prod.fst =
        l.filter (fun k => keys2.contains k &&
          !(jsonEq (getField s1 k) (getField s2 k))) ∧
    (diffLoop keys2 s1 s2 l).2.2 =
        l.filter (fun k => keys2.contains k &&
          jsonEq (getField s1 k) (getField s2 k)) := by
  induction l with
  | nil => exact ⟨rfl, rfl, rfl⟩
  | cons k ks ih =>
    obtain ⟨ih1, ih2, ih3⟩ := ih
    by_cases h1 : k ∈ keys2 <;>
      by_cases h2 : jsonEq (getField s1 k) (getField s2 k) <;>
        refine ⟨?_, ?_, ?_⟩ <;>
          simp [diffLoop, h1, h2, ih1, ih2, ih3, List.elem_iff]

/-- Helper: occurrence count of a key in a filtered duplicate-free list. -/
theorem count_filter_nodup (l : List String) (hl : l.Nodup) (p : String → Bool)
    (k : String) :
    (l.filter p).count k = if k ∈ l ∧ p k then 1 else 0 := by
  by_cases hp : p k
  · rw [List.count_filter hp]
    by_cases hm : k ∈ l
    · simp [hp, hm, List.count_eq_one_of_mem hl hm]
    · simp [hp, hm, List.count_eq_zero_of_not_mem hm]
  · have hnm : k ∉ l.filter p := fun hmem => hp (List.of_mem_filter hmem)
    simp [List.count_eq_zero_of_not_mem hnm, hp]

/-- Claim C4: for snapshots `a` and `b` (with the duplicate-free key lists
JavaScript objects guarantee), every key of `a.state` or `b.state` lands in
exactly one of the four buckets of `compareSnapshots a b` — the four
occurrence counts sum to `1` for a key of either state and to `0` for any
other key, so no key appears in two buckets. -/
theorem compareSnapshots_partition (a b : FormSnapshot)
    (ha : (keysOf a.state).Nodup) (hb : (keysOf b.state).Nodup) :
    ∀ k : String,
      (((compareSnapshots a b).added.map Prod.fst).count k +
        ((compareSnapshots a b).removed.map Prod.fst).count k +
        ((compareSnapshots a b).modified.map Prod.fst).count k +
        (compareSnapshots a b).unchanged.count k) =
      if k ∈ keysOf a.state ∨ k ∈ keysOf b.state then 1 else 0 := by
  intro k
  unfold compareSnapshots
  dsimp only
  rw [addedLoop_keys, (diffLoop_keys _ _ _ _).1, (diffLoop_keys _ _ _ _).2.1,
    (diffLoop_keys _ _ _ _).2.2]
  rw [count_filter_nodup _ hb, count_filter_nodup _ ha,
    count_filter_nodup _ ha, count_filter_nodup _ ha]
  have hca : (keysOf a.state).contains k ↔ k ∈ keysOf a.state := List.elem_iff
  have hcb : (keysOf b.state).contains k ↔ k ∈ keysOf b.state := List.elem_iff
  by_cases h1 : k ∈ keysOf a.state <;>
    by_cases h2 : k ∈ keysOf b.state <;>
      by_cases h3 : jsonEq (getField a.state k) (getField b.state k) <;>
        simp [h1, h2, h3, hca.mpr, hcb.mpr,
          fun h => (hca.not.mpr h), fun h => (hcb.not.mpr h)]

/-- Witness for C4: the partition equation at a concrete pair of snapshots
and the key `"b"` (present in both states, modified). -/
theorem compareSnapshots_partition_witness :
    (((compareSnapshots
        { emptySnapshot with state := [("a", .vNum 1), ("b", .vNum 2)] }
        { emptySnapshot with state := [("b", .vNum 3), ("c", .vNum 4)] }).added.map
          Prod.fst).count "b" +
      ((compareSnapshots
        { emptySnapshot with state := [("a", .vNum 1), ("b", .vNum 2)] }
        { emptySnapshot with state := [("b", .vNum 3), ("c", .vNum 4)] }).removed.map
          Prod.fst).count "b" +
      ((compareSnapshots
        { emptySnapshot with state := [("a", .vNum 1), ("b", .vNum 2)] }
        { emptySnapshot with state := [("b", .vNum 3), ("c", .vNum 4)] }).modified.map
          Prod.fst).count "b" +
      (compareSnapshots
        { emptySnapshot with state := [("a", .vNum 1), ("b", .vNum 2)] }
        { emptySnapshot with state := [("b", .vNum 3), ("c", .vNum 4)] }).unchanged.count
          "b") =
    if "b" ∈ keysOf [("a", Value.vNum 1), ("b", Value.vNum 2)] ∨
        "b" ∈ keysOf [("b", Value.vNum 3), ("c", Value.vNum 4)] then 1
    else 0 :=
  compareSnapshots_partition
    { emptySnapshot with state := [("a", .vNum 1), ("b", .vNum 2)] }
    { emptySnapshot with state := [("b", .vNum 3), ("c", .vNum 4)] }
    (by decide) (by decide) "b"

/-- Helper: zero-padding to `n + 1` peels off the (`0`-defaulted) head. -/
theorem padZero_cons (l : List Int) (n : Nat) :
    padZero l (n + 1) = l.headD 0 :: padZero l.tail n := by
  cases l with
  | nil => simp [padZero, List.replicate_succ]
  | cons x t => simp [padZero, Nat.succ_sub_succ]

/-- Helper: one step of the segment loop against one step of the
lexicographic comparison. -/
theorem cmpStep (a b ct : Int) (pa pb : List Int)
    (IH : (ct = 0 ↔ lexOrdInt pa pb = .eq) ∧
      (ct < 0 ↔ lexOrdInt pa pb = .lt) ∧
      (0 < ct ↔ lexOrdInt pa pb = .gt)) :
    ((if a ≠ b then a - b else ct) = 0 ↔
        lexOrdInt (a :: pa) (b :: pb) = .eq) ∧
      ((if a ≠ b then a - b else ct) < 0 ↔
        lexOrdInt (a :: pa) (b :: pb) = .lt) ∧
      (0 < (if a ≠ b then a - b else ct) ↔
        lexOrdInt (a :: pa) (b :: pb) = .gt) := by
  by_cases hab : a = b
  · subst hab
    simpa [lexOrdInt] using IH
  · rcases lt_or_gt_of_ne hab with hlt | hgt
    · have h2 : lexOrdInt (a :: pa) (b :: pb) = .lt := by
        simp [lexOrdInt, hlt]
      rw [if_pos hab, h2]
      refine ⟨?_, ?_, ?_⟩ <;> simp <;> omega
    · have h2 : lexOrdInt (a :: pa) (b :: pb) = .gt := by
        simp [lexOrdInt, not_lt.mpr hgt.le, hgt]
      rw [if_pos hab, h2]
      refine ⟨?_, ?_, ?_⟩ <;> simp <;> omega

/-- Helper: the source's segment loop agrees in sign with lexicographic
comparison of the zero-padded segment lists. -/
theorem cmpSegAux_lex : ∀ (n : Nat) (as' bs : List Int),
    as'.length ≤ n → bs.length ≤ n →
    ((cmpSegAux n as' bs = 0 ↔
        lexOrdInt (padZero as' n) (padZero bs n) = .eq) ∧
      (cmpSegAux n as' bs < 0 ↔
        lexOrdInt (padZero as' n) (padZero bs n) = .lt) ∧
      (0 < cmpSegAux n as' bs ↔
        lexOrdInt (padZero as' n) (padZero bs n) = .gt)) := by
  intro n
  induction n with
  | zero =>
    intro as' bs ha hb
    have ha' : as' = [] := List.length_eq_zero.mp (Nat.le_zero.mp ha)
    have hb' : bs = [] := List.length_eq_zero.mp (Nat.le_zero.mp hb)
    subst ha'; subst hb'
    simp [cmpSegAux, padZero, lexOrdInt]
  | succ n ih =>
    intro as' bs ha hb
    rw [padZero_cons, padZero_cons]
    have hta : as'.tail.length ≤ n := by
      have := as'.length_tail
      omega
    have htb : bs.tail.length ≤ n := by
      have := bs.length_tail
      omega
    have hstep : cmpSegAux (n + 1) as' bs =
        if as'.headD 0 ≠ bs.headD 0 then as'.headD 0 - bs.headD 0
        else cmpSegAux n as'.tail bs.tail := rfl
    rw [hstep]
    exact cmpStep _ _ _ _ _ (ih as'.tail bs.tail hta htb)

/-- Claim C7: the version comparator orders dotted-numeric version strings
by numeric segment comparison with missing segments treated as `0` (its sign
agrees with the lexicographic comparison of the zero-padded numeric segment
lists for all version strings), so stable-sorting
`["1.2.0", "1.10.0", "2.0.0"]` ascending returns it unchanged (and sorts any
permutation of it the same way), unlike lexical string order, which would
misorder `"1.10.0"` before `"1.2.0"`. -/
theorem compareVersions_numeric_order :
    (∀ v1 v2 : String,
      (compareVersions v1 v2 = 0 ↔
        numericSegCompare (segsOf v1) (segsOf v2) = .eq) ∧
      (compareVersions v1 v2 < 0 ↔
        numericSegCompare (segsOf v1) (segsOf v2) = .lt) ∧
      (0 < compareVersions v1 v2 ↔
        numericSegCompare (segsOf v1) (segsOf v2) = .gt)) ∧
    sortByCmp compareVersions ["1.2.0", "1.10.0", "2.0.0"] =
      ["1.2.0", "1.10.0", "2.0.0"] ∧
    sortByCmp compareVersions ["1.10.0", "2.0.0", "1.2.0"] =
      ["1.2.0", "1.10.0", "2.0.0"] ∧
    stringLexLt "1.10.0" "1.2.0" = true ∧
    compareVersions "1.2.0" "1.10.0" < 0 := by
  refine ⟨?_, by decide, by decide, by decide, by decide⟩
  intro v1 v2
  unfold compareVersions cmpSegLists numericSegCompare
  exact cmpSegAux_lex _ _ _ (Nat.le_max_left _ _) (Nat.le_max_right _ _)

/-- Helper: running a chain decomposed around its first failure. -/
theorem runChain_append (xs ys : List Migration) (dir : String) (now : Int)
    (s : FormSnapshot) :
    runChain (xs ++ ys) dir now s =
      match runChain xs dir now s with
      | .ok s' => runChain ys dir now s'
      | .error e => .error e := by
  induction xs generalizing s with
  | nil => rfl
  | cons m rest ih =>
    cases hx : executeMigration s m dir now with
    | ok next => simp [runChain, hx, ih]
    | error e => simp [runChain, hx]

/-- Claim C3: if, in the chain `migrateToVersion` selects, some migration's
`up`/`down` function throws (after the earlier steps succeeded), the call
returns exactly the `SnapshotMigrationError` of the failing step — carrying
the failing migration's version and the snapshot being migrated at that
point — the remaining chain (`post`) is aborted, and no (partially
migrated) snapshot is ever returned. -/
theorem migrateToVersion_failure_aborts
    (mgr : SnapshotMigrationManager) (snapshot : FormSnapshot)
    (targetVersion : String) (now : Int) (pre post : List Migration)
    (m : Migration) (sPre : FormSnapshot) (e : SnapshotMigrationError)
    (isUp : Bool) (dir : String)
    (hne : compareVersions snapshot.version targetVersion ≠ 0)
    (hUp : isUp = decide (compareVersions targetVersion snapshot.version > 0))
    (hdir : dir = if isUp then "up" else "down")
    (hsel : selectMigrations mgr snapshot.version targetVersion isUp =
      pre ++ m :: post)
    (hpre : runChain pre dir now snapshot = .ok sPre)
    (hfail : executeMigration sPre m dir now = .error e) :
    migrateToVersion mgr snapshot targetVersion now = .error e ∧
      e.version = m.version ∧ e.snapshot = sPre ∧
      ∀ s', migrateToVersion mgr snapshot targetVersion now ≠ .ok s' := by
  subst hUp
  subst hdir
  have hmain : migrateToVersion mgr snapshot targetVersion now = .error e := by
    unfold migrateToVersion
    rw [if_neg hne]
    dsimp only
    rw [hsel, runChain_append, hpre]
    simp only [runChain, hfail]
  have hshape : e.version = m.version ∧ e.snapshot = sPre := by
    unfold executeMigration at hfail
    dsimp only at hfail
    split at hfail
    · cases hfail
    · cases hfail
      exact ⟨rfl, rfl⟩
  refine ⟨hmain, hshape.1, hshape.2, ?_⟩
  intro s'
  rw [hmain]
  intro hcon
  cases hcon

/-- Witness for C3: on a registered chain `1.1.0` (succeeds), `1.2.0`
(throws), migrating `snapW` from `"1.0.0"` to `"1.2.0"` returns the error of
the `1.2.0` step, carrying that version and the snapshot after the `1.1.0`
step. -/
theorem migrateToVersion_failure_aborts_witness :
    migrateToVersion managerW snapW "1.2.0" 7 = .error errW ∧
      errW.version = "1.2.0" ∧ errW.snapshot = sPreW :=
  have h := migrateToVersion_failure_aborts managerW snapW "1.2.0" 7
    [migrationOne] [] migrationBoom sPreW errW true "up"
    (by decide) (by decide) rfl rfl rfl rfl
  ⟨h.1, h.2.1, h.2.2.1⟩

/-- Helper: the element at position `i + 1` of the processed list is the
processing of the filtered list's element `i + 1` against element `i`. -/
theorem processFrom_get_succ (config : SnapshotFormConfig)
    (filters : ReportFilters) :
    ∀ (l : List FormSnapshot) (p0 : Option FormSnapshot) (i : Nat)
      (prev cur : FormSnapshot),
      l.get? i = some prev → l.get? (i + 1) = some cur →
      (processFrom config filters p0 l).get? (i + 1) =
        some (processSnapshot config filters (some prev) cur) := by
  intro l
  induction l with
  | nil =>
    intro p0 i prev cur h1 h2
    simp at h1
  | cons x xs ih =>
    intro p0 i prev cur h1 h2
    cases i with
    | zero =>
      cases xs with
      | nil => simp at h2
      | cons y ys =>
        simp at h1 h2
        subst h1
        subst h2
        simp [processFrom]
    | succ j =>
      simp only [List.get?_cons_succ] at h1 h2
      simpa [processFrom] using ih (some x) j prev cur h1 h2

/-- Helper: the change list the report loop collects is the serialised
shallow diff over the current snapshot's keys. -/
theorem changesLoop_fst (fields : Option (List String))
    (config : SnapshotFormConfig) (prevState curState : StateV) :
    ∀ keys : List String,
      (changesLoop fields config prevState curState keys).1 =
        keys.filterMap (fun k =>
          if changeCond fields prevState curState k then
            some (k, ⟨getField prevState k, getField curState k⟩)
          else none) := by
  intro keys
  induction keys with
  | nil => rfl
  | cons k ks ih =>
    cases h : changeCond fields prevState curState k <;>
      simp [changesLoop, h, ih, List.filterMap_cons]

/-- Helper: the loop's important-change counter counts exactly the collected
changes whose field is marked important in the config. -/
theorem changesLoop_snd (fields : Option (List String))
    (config : SnapshotFormConfig) (prevState curState : StateV) :
    ∀ keys : List String,
      (changesLoop fields config prevState curState keys).2 =
        countImportantChanges config
          (changesLoop fields config prevState curState keys).1 := by
  intro keys
  induction keys with
  | nil => rfl
  | cons k ks ih =>
    cases h : changeCond fields prevState curState k
    · simp [changesLoop, h, ih]
    · cases hi : importantIn config k <;>
        simp [changesLoop, h, ih, countImportantChanges, List.filter_cons,
          hi, Nat.add_comm]

/-- Helper: reading the optional changes slot back with default `[]` is the
identity on the collected list. -/
theorem optChanges_getD (L : List (String × FieldChange)) :
    (if L.length > 0 then some L else none).getD [] = L := by
  cases L <;> simp

/-- Helper: the changes slot of a processed non-first snapshot, read back
with default `[]`, is the serialised shallow diff. -/
theorem processSnapshot_changes (config : SnapshotFormConfig)
    (filters : ReportFilters) (prev cur : FormSnapshot) :
    (processSnapshot config filters (some prev) cur).changes.getD [] =
      serializedDiff filters.fields prev.state cur.state := by
  unfold processSnapshot serializedDiff
  dsimp only
  rw [changesLoop_fst]
  exact optChanges_getD _

/-- Claim C1 (counterexample): `generateReport` does not use
`createAutoSnapshot`'s per-field check (strict equality over the configured
fields).  With config `{a}` and a change only in the unconfigured state key
`"b"`, the report's second snapshot carries the change `{b}`, while the
auto-snapshot-style check over the configured fields (restricted by the
absent `filters.fields`) collects nothing — the two computations differ. -/
theorem generateReport_changes_differ_from_autoSnapshot_check :
    ((((generateReport [prevSC, curSC] cfgC {} 0).snapshots.getD 1
        defaultProcessed).changes.getD []).map Prod.fst = ["b"]) ∧
    autoStyleChanges cfgC none curSC.state prevSC.state = [] ∧
    ((generateReport [prevSC, curSC] cfgC {} 0).snapshots.getD 1
        defaultProcessed).changes.getD [] ≠
      autoStyleChanges cfgC none curSC.state prevSC.state := by
  refine ⟨rfl, rfl, ?_⟩
  intro h
  exact absurd (congrArg List.length h) (by decide)

/-- Claim C1 (amended): for every snapshot list, configuration, and options
with `onlyImportant` unset, `generateReport` computes each non-first
snapshot's changes against its immediate chronological predecessor in the
filtered set — but with the per-field serialised-equality
(`JSON.stringify`) check over the keys of the current snapshot's state (not
`createAutoSnapshot`'s strict equality over the configured fields),
restricted to `filters.fields` when given. -/
theorem generateReport_changes_serializedDiff (snapshots : List FormSnapshot)
    (config : SnapshotFormConfig) (options : ReportOptions) (now : Int)
    (i : Nat) (prev cur : FormSnapshot)
    (honly : (options.filters.getD noFilters).onlyImportant.getD false = false)
    (hprev : (filteredSnapshots snapshots
      (options.filters.getD noFilters)).get? i = some prev)
    (hcur : (filteredSnapshots snapshots
      (options.filters.getD noFilters)).get? (i + 1) = some cur) :
    ∃ ps, (generateReport snapshots config options now).snapshots.get? (i + 1) =
        some ps ∧
      ps.changes.getD [] = serializedDiff
        (options.filters.getD noFilters).fields prev.state cur.state := by
  refine ⟨processSnapshot config (options.filters.getD noFilters) (some prev)
    cur, ?_, processSnapshot_changes _ _ _ _⟩
  unfold generateReport
  dsimp only
  rw [honly]
  simp only [Bool.false_eq_true, if_false]
  exact processFrom_get_succ _ _ _ _ _ _ _ hprev hcur

/-- Witness for C1 (amended): the report over `[prevSC, curSC]` with empty
options carries, at position 1, exactly the serialised diff of the two
states. -/
theorem generateReport_changes_serializedDiff_witness :
    ∃ ps, (generateReport [prevSC, curSC] cfgC {} 0).snapshots.get? 1 =
        some ps ∧
      ps.changes.getD [] = serializedDiff none prevSC.state curSC.state :=
  generateReport_changes_serializedDiff [prevSC, curSC] cfgC {} 0 0
    prevSC curSC rfl rfl rfl

/-- Helper: every element of the processed list is the processing of some
input snapshot against some predecessor. -/
theorem processFrom_mem (config : SnapshotFormConfig)
    (filters : ReportFilters) :
    ∀ (l : List FormSnapshot) (p0 : Option FormSnapshot)
      (ps : ProcessedSnapshot),
      ps ∈ processFrom config filters p0 l →
      ∃ p' s, ps = processSnapshot config filters p' s := by
  intro l
  induction l with
  | nil =>
    intro p0 ps h
    simp [processFrom] at h
  | cons x xs ih =>
    intro p0 ps h
    simp only [processFrom, List.mem_cons] at h
    rcases h with h | h
    · exact ⟨p0, x, h⟩
    · exact ih (some x) ps h

/-- Helper: the importance boundaries of one processed snapshot. -/
theorem processSnapshot_importance (config : SnapshotFormConfig)
    (filters : ReportFilters) (p0 : Option FormSnapshot) (s : FormSnapshot)
    (ps : ProcessedSnapshot)
    (hps : ps = processSnapshot config filters p0 s) :
    ((ps.changes.getD []).length = 3 ∧
        countImportantChanges config (ps.changes.getD []) = 0 →
      ps.importance = .low) ∧
    ((ps.changes.getD []).length = 4 ∧
        countImportantChanges config (ps.changes.getD []) = 0 →
      ps.importance = .medium) ∧
    (1 ≤ countImportantChanges config (ps.changes.getD []) →
      ps.importance = .high) := by
  subst hps
  cases p0 with
  | none =>
    refine ⟨fun _ => rfl, ?_, ?_⟩
    · rintro ⟨h4, -⟩
      simp [processSnapshot] at h4
    · intro h1
      simp [processSnapshot, countImportantChanges] at h1
  | some prev =>
    have hcnt := changesLoop_snd filters.fields config prev.state s.state
      (keysOf s.state)
    have hgetD : (processSnapshot config filters (some prev) s).changes.getD
        [] = (changesLoop filters.fields config prev.state s.state
          (keysOf s.state)).1 := by
      unfold processSnapshot
      dsimp only
      exact optChanges_getD _
    have himp : (processSnapshot config filters (some prev) s).importance =
        if (changesLoop filters.fields config prev.state s.state
            (keysOf s.state)).2 > 0 then .high
        else if (changesLoop filters.fields config prev.state s.state
            (keysOf s.state)).1.length > 3 then .medium
        else .low := rfl
    refine ⟨?_, ?_, ?_⟩
    · rintro ⟨h3, h0⟩
      rw [hgetD] at h3 h0
      rw [himp, hcnt, h0, h3]
      simp
    · rintro ⟨h4, h0⟩
      rw [hgetD] at h4 h0
      rw [himp, hcnt, h0, h4]
      simp
    · intro h1
      rw [hgetD] at h1
      rw [himp, hcnt]
      simp [Nat.lt_of_lt_of_le Nat.zero_lt_one h1]

/-- Claim C5: in `generateReport`'s classification, a report snapshot whose
computed change set has exactly 3 changed fields, none marked important in
the config, classifies as low; one with 4 changed non-important fields
classifies as medium; and one with at least one changed field marked
important classifies as high, regardless of the total changed-field
count. -/
theorem generateReport_importance_boundaries (snapshots : List FormSnapshot)
    (config : SnapshotFormConfig) (options : ReportOptions) (now : Int)
    (ps : ProcessedSnapshot)
    (hmem : ps ∈ (generateReport snapshots config options now).snapshots) :
    ((ps.changes.getD []).length = 3 ∧
        countImportantChanges config (ps.changes.getD []) = 0 →
      ps.importance = .low) ∧
    ((ps.changes.getD []).length = 4 ∧
        countImportantChanges config (ps.changes.getD []) = 0 →
      ps.importance = .medium) ∧
    (1 ≤ countImportantChanges config (ps.changes.getD []) →
      ps.importance = .high) := by
  have hdecomp : ∃ p' s, ps = processSnapshot config
      (options.filters.getD noFilters) p' s := by
    unfold generateReport at hmem
    dsimp only at hmem
    split at hmem
    · exact processFrom_mem _ _ _ _ _ (List.mem_filter.mp hmem).1
    · exact processFrom_mem _ _ _ _ _ hmem
  obtain ⟨p', s, hps⟩ := hdecomp
  exact processSnapshot_importance config _ p' s ps hps

/-- Witness for C5: in the report over `snapsW`, the snapshot with 3
non-important changes is low, the one with 4 is medium, and the one whose
only change is the important field `"a"` is high. -/
theorem generateReport_importance_boundaries_witness :
    ((generateReport snapsW cfg5 {} 0).snapshots.getD 1
      defaultProcessed).importance = .low ∧
    ((generateReport snapsW cfg5 {} 0).snapshots.getD 2
      defaultProcessed).importance = .medium ∧
    ((generateReport snapsW cfg5 {} 0).snapshots.getD 3
      defaultProcessed).importance = .high := by
  refine ⟨?_, ?_, ?_⟩
  · exact (generateReport_importance_boundaries snapsW cfg5 {} 0 _
      (List.get?_mem (show (generateReport snapsW cfg5 {} 0).snapshots.get? 1 =
        some ((generateReport snapsW cfg5 {} 0).snapshots.getD 1
          defaultProcessed) from rfl))).1 ⟨rfl, rfl⟩
  · exact (generateReport_importance_boundaries snapsW cfg5 {} 0 _
      (List.get?_mem (show (generateReport snapsW cfg5 {} 0).snapshots.get? 2 =
        some ((generateReport snapsW cfg5 {} 0).snapshots.getD 2
          defaultProcessed) from rfl))).2.1 ⟨rfl, rfl⟩
  · exact (generateReport_importance_boundaries snapsW cfg5 {} 0 _
      (List.get?_mem (show (generateReport snapsW cfg5 {} 0).snapshots.get? 3 =
        some ((generateReport snapsW cfg5 {} 0).snapshots.getD 3
          defaultProcessed) from rfl))).2.2 (by decide)

/-- Claim C8 (code bug): the formatters do *not* escape all user-controlled
string content.  Both `formatHtmlReport` and `formatMarkdownReport`
interpolate the summary's version list as the raw
`report.summary.versions.join(', ')`: the HTML document embeds the join
verbatim (for `reportX` the unescaped `<script>, v*1`, although
`htmlEscape` would have rewritten it), and the Markdown document contains
the raw `v*1` and not the `mdEscape`d `v\*1` — while the per-snapshot
sections do escape versions, field names, values, and metadata. -/
theorem formatters_embed_unescaped_versions :
    (∀ report : SnapshotReport, ∃ p q : String,
      formatHtmlReport report =
        p ++ joinSep ", " report.summary.versions ++ q) ∧
    joinSep ", " reportX.summary.versions = "<script>, v*1" ∧
    htmlEscape "<script>, v*1" ≠ "<script>, v*1" ∧
    containsSubstr (formatMarkdownReport reportX) "v*1" = true ∧
    mdEscape "v*1" = "v\\*1" ∧
    containsSubstr (formatMarkdownReport reportX) "v\\*1" = false := by
  refine ⟨fun report => ⟨_, _, rfl⟩, rfl, by decide, ?_, by decide, ?_⟩
  · set_option maxRecDepth 8000 in rfl
  · set_option maxRecDepth 8000 in rfl
